import Mathlib

/-!
Shallow embedding of `src/seed.py`, a single-student grade aggregation script.

Modelling conventions:
* Python floats become rationals (`ℚ`); all arithmetic in the script is exact
  on the data it handles, and the spec reasons in exact arithmetic.
* `print` calls become lists of output lines returned by the functions.
* The mutable `Student` object becomes a structure passed and returned
  explicitly: a method that mutates `self` returns the updated structure,
  a method that only reads `self` returns it unchanged.
* The module-level script (validation gate, pipeline, order prompt) becomes
  the function `run`, taking the record list and the string typed at the
  order prompt, and returning the output lines together with the final
  record list.
-/

/-- An assignment record: name, category string ("Formative" or "Summative"),
score out of 100, and weight (percentage contribution in its category).
Mirrors class `Assignment` in seed.py. -/
structure Assignment where
  name : String
  type : String
  score : ℚ
  weight : ℚ

/-- Method `Assignment.calculate_weighted_score`: `(self.score / 100) * self.weight`. -/
def Assignment.calculate_weighted_score (a : Assignment) : ℚ :=
  (a.score / 100) * a.weight

/-- A student: assignment list plus the two running totals.
Mirrors class `Student` in seed.py. -/
structure Student where
  assignments : List Assignment
  formative_total : ℚ
  summative_total : ℚ

/-- Constructor `Student.__init__`: stores the assignments and zeroes both totals. -/
def Student.init (assignments : List Assignment) : Student :=
  { assignments := assignments, formative_total := 0, summative_total := 0 }

/-- The line printed for a resubmission-eligible formative assignment. -/
def resubmissionMessage (name : String) : String :=
  "Assignment \x27" ++ name ++ "\x27 is eligible for resubmission."

/-- The loop body of `Student.calculate_scores`: walks the assignment list,
threading the two totals, and collects the printed resubmission lines. -/
def calcLoop : List Assignment → ℚ → ℚ → ℚ × ℚ × List String
  | [], f, s => (f, s, [])
  | a :: rest, f, s =>
    let weighted_score := a.calculate_weighted_score
    let (f', s') :=
      if a.type = "Formative" then (f + weighted_score, s)
      else (f, s + weighted_score)
    let msgs : List String :=
      if a.type = "Formative" ∧ a.score < 50 then [resubmissionMessage a.name]
      else []
    let (fr, sr, mr) := calcLoop rest f' s'
    (fr, sr, msgs ++ mr)

/-- Method `Student.calculate_scores`: accumulates weighted scores into the two
totals and prints a message for each formative assignment with score < 50.
Returns the updated student and the printed lines. -/
def Student.calculate_scores (st : Student) : Student × List String :=
  let (f, s, msgs) := calcLoop st.assignments st.formative_total st.summative_total
  ({ st with formative_total := f, summative_total := s }, msgs)

/-- The congratulation line of `Student.check_progression`. -/
def congratsMessage : String :=
  "Congratulations! You have passed the course and progressed to the next level."

/-- Method `Student.check_progression`: reads the two totals, prints pass/fail
messages, and assigns nothing; returned student is the input unchanged. -/
def Student.check_progression (st : Student) : Student × List String :=
  let passed_formative := st.formative_total ≥ 30
  let passed_summative := st.summative_total ≥ 20
  if passed_formative ∧ passed_summative then
    (st, [congratsMessage])
  else
    (st, ["Unfortunately, you have not met the minimum requirements."] ++
      (if ¬passed_formative then ["Your formative score is below 30%."] else []) ++
      (if ¬passed_summative then ["Your summative score is below 20%."] else []))

/-- Round a rational to the nearest integer, ties to even — the rounding
used by Python float formatting. -/
def roundHalfEven (q : ℚ) : ℤ :=
  let f := ⌊q⌋
  let r := q - f
  if r < 1 / 2 then f
  else if 1 / 2 < r then f + 1
  else if f % 2 = 0 then f else f + 1

/-- Render a rational the way Python `f"{x:.2f}"` renders the float:
optional minus sign, integer digits, a point, exactly two fractional digits. -/
def formatFixed2 (q : ℚ) : String :=
  let n := roundHalfEven (q * 100)
  let m := n.natAbs
  let signChars : List Char := if n < 0 then [Char.ofNat 45] else []
  String.mk (signChars ++ Nat.toDigits 10 (m / 100) ++
    [Char.ofNat 46, Nat.digitChar (m % 100 / 10), Nat.digitChar (m % 100 % 10)])

/-- One row of the transcript table, for one assignment. -/
def transcriptRow (a : Assignment) : String :=
  a.name ++ "\t" ++ a.type ++ "\t" ++ formatFixed2 a.score ++ "\t" ++
    formatFixed2 a.weight

/-- Method `Student.generate_transcript`: header lines, one row per assignment in
list order, a blank line, then the two formatted totals. -/
def Student.generate_transcript (st : Student) : List String :=
  ["scores in linux and IT tools",
   "Assignment\tType\tScore(%)\tWeight(%)",
   String.mk (List.replicate 40 (Char.ofNat 45))] ++
  st.assignments.map transcriptRow ++
  ["",
   "Formative Total: " ++ formatFixed2 st.formative_total ++ "%",
   "Summative Total: " ++ formatFixed2 st.summative_total ++ "%"]

/-- Script variable `total_formative_weight`: sum of weights of the records
whose type is "Formative". -/
def total_formative_weight (records : List Assignment) : ℚ :=
  ((records.filter fun a => a.type = "Formative").map Assignment.weight).sum

/-- Script variable `total_summative_weight`: sum of weights of the records
whose type is "Summative". -/
def total_summative_weight (records : List Assignment) : ℚ :=
  ((records.filter fun a => a.type = "Summative").map Assignment.weight).sum

/-- The error line printed when the weight caps are exceeded. -/
def weightErrorMessage : String :=
  "Error: Formative or summative weights exceed the allowed limit."

/-- The module-level script: validate the weight caps; on failure print the
error and stop; on success run aggregation, progression check, read the
order prompt (its value is never used), and print the transcript.
Returns the printed lines and the final record list. -/
def run (assignments : List Assignment) (order : String) :
    List String × List Assignment :=
  if total_formative_weight assignments > 60 ∨
      total_summative_weight assignments > 40 then
    ([weightErrorMessage], assignments)
  else
    let student := Student.init assignments
    let (student, resubMsgs) := student.calculate_scores
    let (student, progMsgs) := student.check_progression
    (resubMsgs ++ progMsgs ++ student.generate_transcript, student.assignments)

/-- The sample fixture hard-coded in seed.py. -/
def sampleAssignments : List Assignment :=
  [⟨"Assignment 1", "Formative", 90, 15⟩,
   ⟨"Assignment 2", "Formative", 65, 10⟩,
   ⟨"Assignment 3", "Formative", 100, 10⟩,
   ⟨"Assignment 4", "Formative", 100, 15⟩,
   ⟨"Midterm", "Summative", 77.5, 20⟩,
   ⟨"Final Exam", "Summative", 97.5, 20⟩]

/-- A one-record fixture whose formative weights sum to 61. -/
def sixtyOneFixture : List Assignment :=
  [⟨"Overweight", "Formative", 50, 61⟩]

/-- Spec-side sum: (score/100)*weight over the formative records. -/
def formativeWeightedSum (l : List Assignment) : ℚ :=
  ((l.filter fun a => a.type = "Formative").map fun a => a.score / 100 * a.weight).sum

/-- Spec-side sum: (score/100)*weight over the summative records. -/
def summativeWeightedSum (l : List Assignment) : ℚ :=
  ((l.filter fun a => a.type = "Summative").map fun a => a.score / 100 * a.weight).sum

lemma calcLoop_eq (l : List Assignment) : ∀ f s : ℚ,
    calcLoop l f s =
      (f + ((l.filter fun a => a.type = "Formative").map
          Assignment.calculate_weighted_score).sum,
       s + ((l.filter fun a => ¬(a.type = "Formative")).map
          Assignment.calculate_weighted_score).sum,
       (l.filter fun a => a.type = "Formative" ∧ a.score < 50).map
          fun a => resubmissionMessage a.name) := by
  induction l with
  | nil => intro f s; simp [calcLoop]
  | cons a rest ih =>
    intro f s
    by_cases ht : a.type = "Formative"
    · by_cases hsc : a.score < 50
      · simp [calcLoop, ht, hsc, ih, add_assoc]
      · simp [calcLoop, ht, hsc, ih, add_assoc]
    · simp [calcLoop, ht, ih, add_assoc]

lemma calculate_scores_fst (st : Student) :
    (st.calculate_scores).1 =
      { st with
        formative_total := st.formative_total +
          ((st.assignments.filter fun a => a.type = "Formative").map
            Assignment.calculate_weighted_score).sum,
        summative_total := st.summative_total +
          ((st.assignments.filter fun a => ¬(a.type = "Formative")).map
            Assignment.calculate_weighted_score).sum } := by
  simp [Student.calculate_scores, calcLoop_eq]

lemma calculate_scores_snd (st : Student) :
    (st.calculate_scores).2 =
      (st.assignments.filter fun a => a.type = "Formative" ∧ a.score < 50).map
        fun a => resubmissionMessage a.name := by
  simp [Student.calculate_scores, calcLoop_eq]

/-- Claim C1: for every record list whose formative weights sum to at most 60
and summative weights sum to at most 40 (categories drawn from the two legal
values), aggregation yields a formative total equal to the sum of
(score/100)*weight over the formative records, and likewise for summative. -/
theorem spec_C1 (records : List Assignment)
    (hcat : ∀ a ∈ records, a.type = "Formative" ∨ a.type = "Summative")
    (hf : total_formative_weight records ≤ 60)
    (hs : total_summative_weight records ≤ 40) :
    ((Student.init records).calculate_scores).1.formative_total =
        formativeWeightedSum records ∧
    ((Student.init records).calculate_scores).1.summative_total =
        summativeWeightedSum records := by
  have hws : Assignment.calculate_weighted_score =
      fun a : Assignment => a.score / 100 * a.weight := rfl
  have hfilter :
      (records.filter fun a => !decide (a.type = "Formative")) =
        (records.filter fun a => a.type = "Summative") := by
    apply List.filter_congr
    intro a ha
    rcases hcat a ha with h | h <;> simp [h]
  constructor
  · simp [calculate_scores_fst, Student.init, formativeWeightedSum, hws]
  · simp [calculate_scores_fst, Student.init, summativeWeightedSum, hfilter, hws]

/-- Witness for C1 at the sample fixture. -/
theorem spec_C1_witness :
    (∀ a ∈ sampleAssignments, a.type = "Formative" ∨ a.type = "Summative") ∧
    total_formative_weight sampleAssignments ≤ 60 ∧
    total_summative_weight sampleAssignments ≤ 40 ∧
    (((Student.init sampleAssignments).calculate_scores).1.formative_total =
        formativeWeightedSum sampleAssignments ∧
     ((Student.init sampleAssignments).calculate_scores).1.summative_total =
        summativeWeightedSum sampleAssignments) := by
  have hf2 : ("Formative" = "Summative") = False := by decide
  have hs2 : ("Summative" = "Formative") = False := by decide
  have hcat : ∀ a ∈ sampleAssignments,
      a.type = "Formative" ∨ a.type = "Summative" := by
    intro a ha
    simp only [sampleAssignments, List.mem_cons, List.not_mem_nil, or_false] at ha
    rcases ha with h | h | h | h | h | h <;> subst h <;> simp
  have hf : total_formative_weight sampleAssignments ≤ 60 := by
    norm_num [total_formative_weight, sampleAssignments, hs2]
  have hs : total_summative_weight sampleAssignments ≤ 40 := by
    norm_num [total_summative_weight, sampleAssignments, hf2]
  exact ⟨hcat, hf, hs, spec_C1 sampleAssignments hcat hf hs⟩

/-- Claim C2 (corrected): on the built-in sample fixture the aggregated
totals are formative_total = 45 and summative_total = 35. -/
theorem spec_C2 :
    ((Student.init sampleAssignments).calculate_scores).1.formative_total = 45 ∧
    ((Student.init sampleAssignments).calculate_scores).1.summative_total = 35 := by
  have h : ("Summative" = "Formative") = False := by decide
  constructor <;>
    norm_num [Student.init, Student.calculate_scores, calcLoop,
      sampleAssignments, Assignment.calculate_weighted_score, h]

/-- Counterexample to C2 as stated: on the sample fixture the totals are not
formative_total = 49.5 and summative_total = 39.5. -/
theorem spec_C2_counterexample :
    ¬(((Student.init sampleAssignments).calculate_scores).1.formative_total = 49.5 ∧
      ((Student.init sampleAssignments).calculate_scores).1.summative_total = 39.5) := by
  have h : ("Summative" = "Formative") = False := by decide
  intro hcontra
  have := hcontra.1
  norm_num [Student.init, Student.calculate_scores, calcLoop,
    sampleAssignments, Assignment.calculate_weighted_score, h] at this

/-- Claim C3: check_progression reports the pass message exactly when the
formative total is at least 30 and the summative total is at least 20. -/
theorem spec_C3 (s : Student) :
    congratsMessage ∈ (s.check_progression).2 ↔
      (s.formative_total ≥ 30 ∧ s.summative_total ≥ 20) := by
  by_cases hf : s.formative_total ≥ 30 <;> by_cases hs : s.summative_total ≥ 20 <;>
    simp [Student.check_progression, hf, hs] <;> decide

/-- Claim C4: the resubmission lines produced by aggregation are exactly the
formative records with score < 50, in input order, one line per name. -/
theorem spec_C4 (records : List Assignment) :
    ((Student.init records).calculate_scores).2 =
      (records.filter fun a => a.type = "Formative" ∧ a.score < 50).map
        fun a => resubmissionMessage a.name := by
  simp [calculate_scores_snd, Student.init]

/-- Claim C9: check_progression leaves the student state untouched: same
assignment list, same formative total, same summative total. -/
theorem spec_C9 (s : Student) :
    (s.check_progression).1 = s ∧
    (s.check_progression).1.assignments = s.assignments ∧
    (s.check_progression).1.formative_total = s.formative_total ∧
    (s.check_progression).1.summative_total = s.summative_total := by
  by_cases h : (s.formative_total ≥ 30 ∧ s.summative_total ≥ 20) <;>
    simp [Student.check_progression, h]

/-- Claim C10: a fresh student starts with zero totals, and running
calculate_scores a second time doubles both totals (accumulation, not
idempotence). -/
theorem spec_C10 (records : List Assignment) :
    (Student.init records).formative_total = 0 ∧
    (Student.init records).summative_total = 0 ∧
    (((Student.init records).calculate_scores).1.calculate_scores).1.formative_total =
      2 * ((Student.init records).calculate_scores).1.formative_total ∧
    (((Student.init records).calculate_scores).1.calculate_scores).1.summative_total =
      2 * ((Student.init records).calculate_scores).1.summative_total := by
  refine ⟨rfl, rfl, ?_, ?_⟩ <;>
  · simp [calculate_scores_fst, Student.init]
    ring

lemma digitChar_isDigit {n : Nat} (h : n < 10) : (Nat.digitChar n).isDigit := by
  interval_cases n <;> decide

lemma toDigitsCore_isDigit : ∀ (fuel n : Nat) (acc : List Char),
    (∀ c ∈ acc, c.isDigit) → ∀ c ∈ Nat.toDigitsCore 10 fuel n acc, c.isDigit := by
  intro fuel
  induction fuel with
  | zero => intro n acc hacc; simpa [Nat.toDigitsCore] using hacc
  | succ f ih =>
    intro n acc hacc
    have hd : (Nat.digitChar (n % 10)).isDigit :=
      digitChar_isDigit (Nat.mod_lt _ (by norm_num))
    have hacc' : ∀ c ∈ Nat.digitChar (n % 10) :: acc, c.isDigit := by
      intro c hc
      rcases List.mem_cons.mp hc with h | h
      · exact h ▸ hd
      · exact hacc c h
    intro c hc
    rw [Nat.toDigitsCore] at hc
    by_cases hz : n / 10 = 0
    · rw [if_pos hz] at hc
      exact hacc' c hc
    · rw [if_neg hz] at hc
      exact ih (n / 10) _ hacc' c hc

lemma toDigits_isDigit (n : Nat) : ∀ c ∈ Nat.toDigits 10 n, c.isDigit := by
  intro c hc
  exact toDigitsCore_isDigit (n + 1) n [] (by simp) c hc

/-- A string ending in a decimal point followed by exactly two digits, with
no other decimal point before it. -/
def twoDecimalString (t : String) : Prop :=
  ∃ p d1 d2, t = String.mk (p ++ [Char.ofNat 46, d1, d2]) ∧
    Char.ofNat 46 ∉ p ∧ d1.isDigit ∧ d2.isDigit

lemma formatFixed2_twoDecimal (q : ℚ) : twoDecimalString (formatFixed2 q) := by
  refine ⟨(if roundHalfEven (q * 100) < 0 then [Char.ofNat 45] else []) ++
      Nat.toDigits 10 ((roundHalfEven (q * 100)).natAbs / 100),
    Nat.digitChar ((roundHalfEven (q * 100)).natAbs % 100 / 10),
    Nat.digitChar ((roundHalfEven (q * 100)).natAbs % 100 % 10), ?_, ?_, ?_, ?_⟩
  · simp [formatFixed2]
  · intro hmem
    rcases List.mem_append.mp hmem with h | h
    · by_cases hn : roundHalfEven (q * 100) < 0
      · rw [if_pos hn] at h
        rcases List.mem_singleton.mp h with h
        exact absurd h (by decide)
      · rw [if_neg hn] at h
        exact absurd h (List.not_mem_nil _)
    · have := toDigits_isDigit _ _ h
      exact absurd this (by decide)
  · have hlt : (roundHalfEven (q * 100)).natAbs % 100 < 100 :=
      Nat.mod_lt _ (by norm_num)
    exact digitChar_isDigit (by omega)
  · exact digitChar_isDigit (Nat.mod_lt _ (by norm_num))

/-- Claim C5: the run prints exactly the weight-exceeded error iff the
formative weights sum over 60 or the summative weights sum over 40; in
particular the fixture with formative weight sum 61 is rejected. -/
theorem spec_C5 (records : List Assignment) (order : String) :
    ((run records order).1 = [weightErrorMessage] ↔
      (total_formative_weight records > 60 ∨
        total_summative_weight records > 40)) ∧
    (run sixtyOneFixture order).1 = [weightErrorMessage] := by
  constructor
  · constructor
    · intro h
      by_contra hc
      rw [run, if_neg hc] at h
      have hmem : "scores in linux and IT tools" ∈ (run records order).1 := by
        rw [run, if_neg hc]
        simp [Student.generate_transcript]
      rw [run, if_neg hc, h] at hmem
      rcases List.mem_singleton.mp hmem with hmem
      exact absurd hmem (by decide)
    · intro hcond
      rw [run, if_pos hcond]
  · have h61 : total_formative_weight sixtyOneFixture > 60 ∨
        total_summative_weight sixtyOneFixture > 40 := by
      left; norm_num [total_formative_weight, sixtyOneFixture]
    rw [run, if_pos h61]

/-- Claim C6: when validation fails, the run prints only the error line —
no resubmission notices, no progression message, no transcript — and the
record list comes back unchanged. -/
theorem spec_C6 (records : List Assignment) (order : String)
    (h : total_formative_weight records > 60 ∨
      total_summative_weight records > 40) :
    run records order = ([weightErrorMessage], records) := by
  rw [run, if_pos h]

/-- Witness for C6 at the over-weight fixture. -/
theorem spec_C6_witness :
    (total_formative_weight sixtyOneFixture > 60 ∨
      total_summative_weight sixtyOneFixture > 40) ∧
    run sixtyOneFixture "descending" = ([weightErrorMessage], sixtyOneFixture) := by
  have h : total_formative_weight sixtyOneFixture > 60 ∨
      total_summative_weight sixtyOneFixture > 40 := by
    left; norm_num [total_formative_weight, sixtyOneFixture]
  exact ⟨h, spec_C6 sixtyOneFixture "descending" h⟩

/-- Claim C7: every row of the transcript carries its score and weight
formatted with exactly two decimal digits, and so do the two totals lines. -/
theorem spec_C7 (s : Student) (a : Assignment) (ha : a ∈ s.assignments) :
    transcriptRow a ∈ s.generate_transcript ∧
    transcriptRow a = a.name ++ "\t" ++ a.type ++ "\t" ++ formatFixed2 a.score
      ++ "\t" ++ formatFixed2 a.weight ∧
    ("Formative Total: " ++ formatFixed2 s.formative_total ++ "%") ∈
      s.generate_transcript ∧
    ("Summative Total: " ++ formatFixed2 s.summative_total ++ "%") ∈
      s.generate_transcript ∧
    twoDecimalString (formatFixed2 a.score) ∧
    twoDecimalString (formatFixed2 a.weight) ∧
    twoDecimalString (formatFixed2 s.formative_total) ∧
    twoDecimalString (formatFixed2 s.summative_total) := by
  refine ⟨?_, rfl, ?_, ?_, formatFixed2_twoDecimal _, formatFixed2_twoDecimal _,
    formatFixed2_twoDecimal _, formatFixed2_twoDecimal _⟩
  · simp only [Student.generate_transcript, List.mem_append, List.mem_map]
    exact Or.inl (Or.inr ⟨a, ha, rfl⟩)
  · simp [Student.generate_transcript]
  · simp [Student.generate_transcript]

/-- Witness for C7 at the first sample assignment. -/
theorem spec_C7_witness :
    (⟨"Assignment 1", "Formative", 90, 15⟩ : Assignment) ∈
      (Student.init sampleAssignments).assignments ∧
    (transcriptRow ⟨"Assignment 1", "Formative", 90, 15⟩ ∈
        (Student.init sampleAssignments).generate_transcript ∧
      transcriptRow ⟨"Assignment 1", "Formative", 90, 15⟩ =
        "Assignment 1" ++ "\t" ++ "Formative" ++ "\t" ++ formatFixed2 90
          ++ "\t" ++ formatFixed2 15 ∧
      ("Formative Total: " ++
          formatFixed2 (Student.init sampleAssignments).formative_total ++ "%") ∈
        (Student.init sampleAssignments).generate_transcript ∧
      ("Summative Total: " ++
          formatFixed2 (Student.init sampleAssignments).summative_total ++ "%") ∈
        (Student.init sampleAssignments).generate_transcript ∧
      twoDecimalString (formatFixed2 90) ∧
      twoDecimalString (formatFixed2 15) ∧
      twoDecimalString (formatFixed2 (Student.init sampleAssignments).formative_total) ∧
      twoDecimalString (formatFixed2 (Student.init sampleAssignments).summative_total)) := by
  have ha : (⟨"Assignment 1", "Formative", 90, 15⟩ : Assignment) ∈
      (Student.init sampleAssignments).assignments := by
    simp [Student.init, sampleAssignments]
  exact ⟨ha, spec_C7 (Student.init sampleAssignments) _ ha⟩

/-- Claim C8: the run output does not depend on the string typed at the
order prompt, and the transcript lists the rows in input order between a
fixed header and the totals. -/
theorem spec_C8 (records : List Assignment) (o1 o2 : String) :
    run records o1 = run records o2 ∧
    ∀ s : Student, ∃ pre post,
      s.generate_transcript = pre ++ s.assignments.map transcriptRow ++ post :=
  ⟨rfl, fun s =>
    ⟨["scores in linux and IT tools",
      "Assignment\tType\tScore(%)\tWeight(%)",
      String.mk (List.replicate 40 (Char.ofNat 45))],
     ["",
      "Formative Total: " ++ formatFixed2 s.formative_total ++ "%",
      "Summative Total: " ++ formatFixed2 s.summative_total ++ "%"], rfl⟩⟩
